import Mathlib

/-!
Verification development for the "Talk to Krishna" retrieval-and-answer
pipeline and its React voice-chat client.

The repository ships the React frontend (`website/krishna-react/src`) and an
architecture document describing the Python backend
(`src/gita_api.py`, `src/llm_generator.py`, `website/api_server.py`); the
backend sources themselves are not part of the checked-out tree, so the
backend is modelled from the specification (and the architecture document's
stated constants: emotion boost +3.0, narrative penalty -5.0, top 15
candidates, final shortlist of 5).  The frontend components
(`VoiceChat.js`, `MessageHistory.js`) are embedded directly from their code.

Real numbers of the scoring pipeline are modelled as rationals `ℚ` so that
every definition stays executable and decidable.
-/

namespace Krishna

/-! ## String utilities (shared by gate, search and client models) -/

/-- Whitespace characters removed by JavaScript `String.prototype.trim` /
Python `str.strip` (ASCII core set). -/
def isWsChar (c : Char) : Bool :=
  c = ' ' || c = '\t' || c = '\n' || c = '\r' || c = '\x0b' || c = '\x0c'

/-- Model of JavaScript `text.trim()`: drop leading and trailing whitespace. -/
def jsTrim (s : String) : String :=
  ⟨((s.toList.dropWhile isWsChar).reverse.dropWhile isWsChar).reverse⟩

/-- Substring occurrence test on character lists. -/
def charsHasSub (hay needle : List Char) : Bool :=
  needle.isPrefixOf hay ||
    match hay with
    | [] => false
    | _ :: t => charsHasSub t needle

/-- `hasSubstr hay needle` is true iff `needle` occurs contiguously in `hay`. -/
def hasSubstr (hay needle : String) : Bool :=
  charsHasSub hay.toList needle.toList

/-- ASCII lower-casing, character by character (the behaviour of
`toLowerCase`/`str.lower` on the latin range). -/
def toLowerStr (s : String) : String := ⟨s.data.map Char.toLower⟩

/-- Lower-cased, trimmed form of a query used by the keyword checks. -/
def normalize (s : String) : String := jsTrim (toLowerStr s)

/-- True iff some pattern of `pats` occurs as a substring of `s`. -/
def matchAny (pats : List String) (s : String) : Bool :=
  pats.any (fun t => hasSubstr s t)

/-- Accumulator-based whitespace tokenizer over a character list. -/
def tokensAux : List Char → List Char → List String
  | [], cur => if cur.isEmpty then [] else [String.mk cur.reverse]
  | c :: rest, cur =>
    if isWsChar c then
      if cur.isEmpty then tokensAux rest []
      else String.mk cur.reverse :: tokensAux rest []
    else tokensAux rest (c :: cur)

/-- Word tokens of a string: split the normalized form on whitespace. -/
def tokensOf (s : String) : List String := tokensAux (normalize s).data []

/-! ## Data model (spec §3) -/

/-- A single retrievable unit: verse, translation, metadata
(spec §3 "Passage"; backing data `data/gita_english.json`). -/
structure Passage where
  id : Nat
  source_text : String
  translation : String
  speaker : String
  emotion_tags : List String
  keywords : List String
  embedding : List ℚ
deriving Repr, DecidableEq

/-- Transient pairing of a Passage with its fused score and the breakdown of
the three contributing sub-scores (spec §3 "Scored Candidate"). -/
structure ScoredCandidate where
  passage : Passage
  dense : ℚ
  lexical : ℚ
  mapping : ℚ
  fused : ℚ
  adjusted : ℚ
deriving Repr, DecidableEq

/-- Urgency/tone classification driving the answer policy (spec §4.5). -/
inductive Tone where
  | crisis
  | distress
  | general
deriving Repr, DecidableEq

/-- The pipeline's output record (spec §3 "Answer Record"). -/
structure AnswerRecord where
  text : String
  tone : Tone
  evidence : List Nat
  audio_ref : Option String
deriving Repr, DecidableEq

/-- Inbound request at the core-facing boundary (spec §6). -/
structure Request where
  question : String
  history : List (String × String)
  user_id : Nat
  include_audio : Bool
deriving Repr, DecidableEq

/-! ## Hybrid Retriever (spec §4.3, architecture doc §5B) -/

/-- Modelled from the spec: tuning parameters of the Hybrid Retriever
(`src/gita_api.py` is not in the tree).  `embed` stands for the local
FastEmbed query-embedding function, `w1 w2 w3` are the non-negative fusion
weights, `minScore` the minimum-score floor and `nSearch` the candidate-list
bound (e.g. 15). -/
structure RetrievalConfig where
  embed : String → List ℚ
  w1 : ℚ
  w2 : ℚ
  w3 : ℚ
  minScore : ℚ
  nSearch : Nat

/-- Emotion-boost constant: +3.0 per the architecture document. -/
def boostValue : ℚ := 3

/-- Narrative-penalty constant: -5.0 per the architecture document. -/
def penaltyValue : ℚ := 5

/-- Dot product; embeddings are unit-normalized, so this is the cosine
similarity of spec §4.3 step 1. -/
def dot (a b : List ℚ) : ℚ := (List.zipWith (· * ·) a b).sum

/-- Modelled from the spec: token-overlap lexical score (spec §4.3 step 2) —
the number of query tokens occurring among the passage's translation and
source-text tokens. -/
def lexicalScore (rew : String) (p : Passage) : ℚ :=
  (((tokensOf rew).filter
    (fun t => (tokensOf (p.translation ++ " " ++ p.source_text)).contains t)).length : ℚ)

/-- Modelled from the spec: curated-mapping score (spec §4.3 step 3) — binary
bonus when a curated trigger keyword of the passage occurs in the raw or the
rewritten query text. -/
def mappingScore (raw rew : String) (p : Passage) : ℚ :=
  if p.keywords.any (fun k =>
      hasSubstr (normalize raw) (normalize k) || hasSubstr (normalize rew) (normalize k))
  then 1 else 0

/-- Narrative-frame speakers: Sanjaya and Dhritarashtra (architecture doc
"Narrative verses (Sanjay/Dhritarashtra speaking) are penalized"). -/
def isNarrative (sp : String) : Bool :=
  decide (toLowerStr sp = "sanjaya") || decide (toLowerStr sp = "dhritarashtra")

/-- Emotion-boost term: `boostValue` when the query's emotional state is among
the passage's emotion tags, else 0 (spec §4.3 step 5). -/
def emotionBoost (estate : String) (p : Passage) : ℚ :=
  if p.emotion_tags.contains estate then boostValue else 0

/-- Narrative-penalty term: `penaltyValue` for narrative-frame speakers,
else 0 (spec §4.3 step 5). -/
def narrativePenalty (p : Passage) : ℚ :=
  if isNarrative p.speaker then penaltyValue else 0

/-- Modelled from the spec: scoring of one passage (`search` internals of the
absent `src/gita_api.py`): fuse the three sub-scores with the fixed weights,
then apply the additive emotion boost and narrative penalty. -/
def scoreOf (cfg : RetrievalConfig) (raw rew estate : String) (p : Passage) :
    ScoredCandidate :=
  let d := dot (cfg.embed rew) p.embedding
  let lx := lexicalScore rew p
  let mp := mappingScore raw rew p
  let f := cfg.w1 * d + cfg.w2 * lx + cfg.w3 * mp
  { passage := p, dense := d, lexical := lx, mapping := mp, fused := f,
    adjusted := f + emotionBoost estate p - narrativePenalty p }

/-- Ranking order of the selection step: higher adjusted score first, ties
broken by ascending passage id (spec §4.3 step 6). -/
def CandLE (a b : ScoredCandidate) : Prop :=
  b.adjusted < a.adjusted ∨
    (a.adjusted = b.adjusted ∧ a.passage.id ≤ b.passage.id)

instance : DecidableRel CandLE := fun a b => by
  unfold CandLE
  exact inferInstance

/-- Modelled from the spec: the Hybrid Retriever's `search()`
(`src/gita_api.py` is not in the tree).  Scores every corpus passage, keeps
those above the minimum-score floor, sorts descending by adjusted score with
ties by passage id (a stable sort, as Python's `sorted`), and truncates to
the top `nSearch`. -/
def search (cfg : RetrievalConfig) (corpus : List Passage)
    (raw rew estate : String) : List ScoredCandidate :=
  let scored := corpus.map (scoreOf cfg raw rew estate)
  let kept := scored.filter (fun c => decide (cfg.minScore < c.adjusted))
  (kept.insertionSort CandLE).take cfg.nSearch

/-! ## Relevance Gate (spec §4.1, architecture doc step 2) -/

/-- Modelled from the spec: blocked-topic pattern set of
`_is_relevant_to_krishna()` in the absent `src/gita_api.py` (sports,
politics, consumer tech, recipes, weather, ...). -/
def blockedTopics : List String :=
  ["cricket", "virat kohli", "ipl", "football", "modi", "trump", "election",
   "politics", "iphone", "laptop", "recipe", "weather", "stock market",
   "bitcoin", "movie"]

/-- Modelled from the spec: allowed-topic pattern set of
`_is_relevant_to_krishna()` (emotional/relational/spiritual vocabulary). -/
def allowedTopics : List String :=
  ["sad", "depress", "anxi", "fear", "afraid", "lonely", "angry", "anger",
   "stress", "tension", "love", "breakup", "relationship", "family",
   "marriage", "friend", "duty", "karma", "dharma", "peace", "mind", "soul",
   "god", "krishna", "gita", "life", "death", "purpose", "meaning",
   "hopeless", "suicide", "exam", "failure", "confus", "guilt", "attachment",
   "meditation"]

/-- Modelled from the spec: greeting phrases checked locally by
`website/api_server.py` before the pipeline runs (exact match on the
normalized query, "if it's just a greeting"). -/
def greetingSet : List String :=
  ["radhe radhe", "hare krishna", "jai shri krishna", "hello", "hi",
   "namaste", "hey"]

/-- A query is a greeting when its normalized form is exactly one of the
greeting phrases. -/
def isGreeting (q : String) : Bool := greetingSet.contains (normalize q)

/-- A query matches the blocked-topic set. -/
def isBlocked (q : String) : Bool := matchAny blockedTopics (normalize q)

/-- A query matches the allowed-topic set. -/
def isAllowed (q : String) : Bool := matchAny allowedTopics (normalize q)

/-! ## Tone classification (spec §4.5, architecture doc step 5) -/

/-- Modelled from the spec: self-harm/hopelessness indicators selecting the
crisis tone (`src/llm_generator.py` is not in the tree). -/
def crisisPatterns : List String :=
  ["suicide", "kill myself", "end my life", "hopeless", "want to die",
   "self harm", "no reason to live", "don't want to continue"]

/-- Modelled from the spec: sadness/anxiety indicators selecting the distress
tone. -/
def distressPatterns : List String :=
  ["sad", "anxious", "depressed", "crying", "afraid", "lonely", "broken",
   "stressed"]

/-- Modelled from the spec: one-shot tone classification over the raw query
and the emotional-state label. -/
def classifyTone (raw estate : String) : Tone :=
  if matchAny crisisPatterns (normalize raw) || estate == "hopeless" then .crisis
  else if matchAny distressPatterns (normalize raw) || estate == "sad"
      || estate == "anxious" then .distress
  else .general

/-! ## Pipeline (spec §2, §4, §7; architecture doc steps 1-6) -/

/-- Failure of an external-model or speech-service call (spec §7). -/
inductive UpstreamError where
  | failure
deriving Repr, DecidableEq

/-- Query Understander output (spec §4.2): rewritten problem statement,
emotional-state label, intent label; fields always present. -/
structure Understanding where
  rewritten : String
  emotional : String
  intent : String
deriving Repr, DecidableEq

/-- One external call made while serving a request: the three language-model
calls and the speech-synthesis call (spec §6). -/
inductive ExtCall where
  | llmUnderstand
  | llmRerank
  | llmSynthesize
  | speechSynthesize
deriving Repr, DecidableEq

/-- Modelled from the spec: the external collaborators (Groq language model,
edge-tts speech service) as oracles; each call may fail upstream. -/
structure LlmOracle where
  understand : String → List (String × String) → Except UpstreamError Understanding
  rerank : List Nat → String → Except UpstreamError (List Nat)
  synth : String → Tone → List Passage → Except UpstreamError String
  speech : String → Except UpstreamError String

/-- Final shortlist bound `N_final` (spec §4.4, e.g. 5). -/
def nFinal : Nat := 5

/-- Fixed greeting answer text (spec §4.1 greeting short-circuit). -/
def greetingText : String := "राधे राधे! मैं कृष्ण हूँ। अपने मन की बात कहो।"

/-- Fixed rejection answer text (spec §4.1 out-of-domain rejection). -/
def rejectionText : String :=
  "मैं केवल जीवन, भावनाओं और अध्यात्म से जुड़े प्रश्नों का उत्तर देता हूँ। 🙏"

/-- Fixed generic non-evidence-grounded answer for empty retrieval
(spec §4.3 edge case, §7 `EmptyCorpusResult`). -/
def genericFallbackText : String :=
  "मन शांत रखो। गीता कहती है कि हर परिस्थिति में स्थिर रहना ही योग है।"

/-- Fixed non-personalized template answer for synthesis-validation failure
(spec §4.5, §7). -/
def templateText : String := "गीता का सार: कर्म करो, फल की चिंता मत करो।"

/-- The rejection Answer Record: tone general, empty evidence, fixed text
(spec §4.1). -/
def rejectionRecord : AnswerRecord :=
  { text := rejectionText, tone := .general, evidence := [], audio_ref := none }

/-- The greeting Answer Record: fixed greeting answer with no evidence
(spec §4.1). -/
def greetingRecord : AnswerRecord :=
  { text := greetingText, tone := .general, evidence := [], audio_ref := none }

/-- Modelled from the spec: strict parse-and-validate boundary after the
reranking call (spec §9): keep only ids that were actually candidates, cap at
`nFinal`, and treat an empty validated list as malformed output (fall back to
the unranked top `nFinal`). -/
def validateRerank (candIds ids : List Nat) : List Nat :=
  let v := (ids.filter (fun i => candIds.contains i)).take nFinal
  if v.isEmpty then candIds.take nFinal else v

/-- Modelled from the spec: the reranking stage with its local fallback
(spec §4.4, §7): on upstream failure the caller falls back to the unranked
top `nFinal` candidates instead of aborting. -/
def rerankStage (o : LlmOracle) (candIds : List Nat) (rew : String) : List Nat :=
  match o.rerank candIds rew with
  | .ok ids => validateRerank candIds ids
  | .error _ => candIds.take nFinal

/-- Modelled from the spec: post-validation of the synthesized answer for the
required structural sections, abstracted to non-degeneracy (spec §4.5). -/
def validAnswer (t : String) : Bool := !t.isEmpty

/-- Modelled from the spec: the Query Understander stage with its default
labels on upstream failure (spec §4.2: output fields are always present,
falling back to designated defaults). -/
def understandStage (o : LlmOracle) (req : Request) : Understanding :=
  match o.understand req.question req.history with
  | .ok u => u
  | .error _ => ⟨req.question, "neutral", "general"⟩

/-- Modelled from the spec: synthesis with post-validation and template
fallback (spec §4.5, §7): the answer text together with the evidence ids
actually cited (the shortlist, truncated to one for the crisis policy; empty
for the non-personalized template). -/
def synthStage (o : LlmOracle) (u : Understanding) (tone : Tone)
    (shortIds : List Nat) (shortPassages : List Passage) : String × List Nat :=
  match o.synth u.rewritten tone shortPassages with
  | .ok t =>
    if validAnswer t then
      (t, match tone with | .crisis => shortIds.take 1 | _ => shortIds)
    else (templateText, [])
  | .error _ => (templateText, [])

/-- Modelled from the spec: the post-gate part of the pipeline — query
understanding (defaulting on failure), hybrid search, reranking with
fallback, tone classification, synthesis with template fallback, and
optional speech dispatch. -/
def fullPath (cfg : RetrievalConfig) (corpus : List Passage) (o : LlmOracle)
    (req : Request) : AnswerRecord × List ExtCall :=
  let u := understandStage o req
  let cands := search cfg corpus req.question u.rewritten u.emotional
  if cands.isEmpty then
    ({ text := genericFallbackText, tone := .general, evidence := [],
       audio_ref := none }, [ExtCall.llmUnderstand])
  else
    let candIds := cands.map (fun c => c.passage.id)
    let shortIds := rerankStage o candIds u.rewritten
    let shortPassages := shortIds.filterMap
      (fun i => corpus.find? (fun p => p.id == i))
    let tone := classifyTone req.question u.emotional
    let answered := synthStage o u tone shortIds shortPassages
    let baseCalls := [ExtCall.llmUnderstand, ExtCall.llmRerank,
      ExtCall.llmSynthesize]
    if req.include_audio then
      match o.speech answered.1 with
      | .ok h =>
        (⟨answered.1, tone, answered.2, some h⟩,
          baseCalls ++ [ExtCall.speechSynthesize])
      | .error _ =>
        (⟨answered.1, tone, answered.2, none⟩,
          baseCalls ++ [ExtCall.speechSynthesize])
    else (⟨answered.1, tone, answered.2, none⟩, baseCalls)

/-- Modelled from the spec: the whole request-serving pipeline of the absent
`website/api_server.py` / `src/gita_api.py` / `src/llm_generator.py`:
greeting short-circuit, relevance gate, then the full path.  Returns the
Answer Record together with the list of external calls made. -/
def runPipeline (cfg : RetrievalConfig) (corpus : List Passage) (o : LlmOracle)
    (req : Request) : AnswerRecord × List ExtCall :=
  if isGreeting req.question then (greetingRecord, [])
  else if isBlocked req.question && !isAllowed req.question then
    (rejectionRecord, [])
  else fullPath cfg corpus o req

/-- An oracle whose reranking call always fails upstream. -/
def failingRerank (o : LlmOracle) : LlmOracle :=
  { o with rerank := fun _ _ => .error .failure }

/-- An oracle whose reranking call returns the unranked top `nFinal` ids. -/
def unrankedRerank (o : LlmOracle) : LlmOracle :=
  { o with rerank := fun ids _ => .ok (ids.take nFinal) }

/-- Modelled from the spec: an oracle whose three language-model calls
succeed with fixed outputs (used to exercise the grounded synthesis path). -/
def wOkOracle : LlmOracle :=
  { understand := fun _ _ => .ok ⟨"peace", "calm", "seeking_peace"⟩,
    rerank := fun ids _ => .ok ids,
    synth := fun _ _ _ => .ok "शांति ही धर्म है",
    speech := fun _ => .ok "audio.mp3" }

/-- A concrete in-domain request used to exercise the grounded path. -/
def wPeaceReq : Request :=
  { question := "I need peace of mind", history := [], user_id := 1,
    include_audio := false }

/-! ## React voice-chat client (`website/krishna-react/src/components`)

State and event handlers of `VoiceChat.js`, with the confirmation-dialog
logic of `MessageHistory.js`.  Network traffic is recorded as a list of
`ClientCall`s emitted by each handler. -/

/-- Message type tag of a chat bubble (`type: 'user' | 'krishna'`). -/
inductive MsgType where
  | user
  | krishna
deriving Repr, DecidableEq

/-- One chat message of `VoiceChat.js` (`{ id, type, text, timestamp }`). -/
structure Msg where
  id : Nat
  mtype : MsgType
  text : String
  timestamp : Nat
deriving Repr, DecidableEq

/-- The React state of the `VoiceChat` component (its `useState` hooks) plus
the `showConfirmDialog` state of `MessageHistory`. -/
structure ClientState where
  messages : List Msg
  isListening : Bool
  isSpeaking : Bool
  isLoading : Bool
  showHistory : Bool
  transcript : String
  hasStarted : Bool
  activeMessageId : Option Nat
  showConfirmDialog : Bool
deriving Repr, DecidableEq

/-- The component's initial state (all hooks at their initial values). -/
def initState : ClientState :=
  { messages := [], isListening := false, isSpeaking := false,
    isLoading := false, showHistory := false, transcript := "",
    hasStarted := false, activeMessageId := none, showConfirmDialog := false }

/-- A network request issued by the client: `POST /api/ask` (with its
`include_audio` flag and question), `POST /api/speak` (speech synthesis of a
text), or `POST /api/transcribe`. -/
inductive ClientCall where
  | ask (include_audio : Bool) (question : String)
  | speak (text : String)
  | transcribe
deriving Repr, DecidableEq

/-- Outcome of the `axios.post(API_URL, ...)` call in `handleVoiceInput`:
a successful answer, an `ECONNABORTED`/timeout error, or any other error. -/
inductive AskOutcome where
  | success (answer : String)
  | timeoutErr
  | otherErr
deriving Repr, DecidableEq

/-- Fallback answer text when `response.data.answer` is falsy
(`VoiceChat.js` line 151). -/
def fallbackAnswerText : String := "क्षमा करें, मैं अभी उत्तर देने में असमर्थ हूँ।"

/-- Fixed retryable timeout message (`VoiceChat.js` line 168). -/
def timeoutText : String := "सर्वर जाग रहा है, कृपया 30 सेकंड बाद पुनः प्रयास करें। 🙏"

/-- Fixed permanent-failure message (`VoiceChat.js` line 169). -/
def permanentErrorText : String := "क्षमा करें, कुछ गलत हो गया। कृपया पुनः प्रयास करें।"

/-- `stopAudio` (`VoiceChat.js` lines 33-43): pause playback, clear the
speaking flag and the active message id. -/
def stopAudio (s : ClientState) : ClientState :=
  { s with isSpeaking := false, activeMessageId := none }

/-- `speakText` (`VoiceChat.js` lines 45-89): toggles playback off when the
same message is already being spoken; otherwise stops current audio, posts
the text to the speak endpoint and marks the message as speaking. -/
def speakText (s : ClientState) (text : String) (mid : Option Nat) :
    ClientState × List ClientCall :=
  if s.isSpeaking && s.activeMessageId == mid && mid.isSome then
    (stopAudio s, [])
  else
    ({ stopAudio s with isSpeaking := true, activeMessageId := mid },
      [ClientCall.speak text])

/-- `handleVoiceInput` (`VoiceChat.js` lines 115-178): ignore blank input;
otherwise append the user message, enter the loading state, post the question
to `/api/ask` with `include_audio: false`, append Krishna's answer (or the
fixed timeout/permanent error message), speak it, and leave the loading
state.  `now` stands for `Date.now()`. -/
def handleVoiceInput (now : Nat) (outcome : AskOutcome) (s : ClientState)
    (text : String) : ClientState × List ClientCall :=
  if (jsTrim text).isEmpty then (s, [])
  else
    let s1 := { s with
                transcript := text
                isLoading := true
                messages := s.messages ++ [Msg.mk now .user text now] }
    let reply : String :=
      match outcome with
      | .success ans => if ans.isEmpty then fallbackAnswerText else ans
      | .timeoutErr => timeoutText
      | .otherErr => permanentErrorText
    let s2 := { s1 with
                messages := s1.messages ++ [Msg.mk (now + 1) .krishna reply (now + 1)] }
    let spoke := speakText s2 reply (some (now + 1))
    ({ spoke.1 with isLoading := false, transcript := "" },
      ClientCall.ask false text :: spoke.2)

/-- `clearHistory` (`VoiceChat.js` lines 275-284): stop any ongoing speech,
empty the message list and reset `hasStarted`; no network request is made. -/
def clearHistory (s : ClientState) : ClientState × List ClientCall :=
  let s0 := if s.isSpeaking then stopAudio s else s
  ({ s0 with messages := [], hasStarted := false }, [])

/-- `handleClearHistory` (`MessageHistory.js` lines 46-49): run the parent's
`clearHistory` and close the confirmation dialog. -/
def handleClearHistory (s : ClientState) : ClientState × List ClientCall :=
  let r := clearHistory s
  ({ r.1 with showConfirmDialog := false }, r.2)

/-- Server-side persisted conversation history after a list of client calls:
only `/api/ask` calls append a conversation row (`users.db` per the
architecture document); speak/transcribe calls leave it unchanged. -/
def serverAfter (h : List String) (calls : List ClientCall) : List String :=
  calls.foldl
    (fun w c => match c with
      | ClientCall.ask _ q => w ++ [q]
      | _ => w) h

/-! ## Concrete instances used by witnesses and counterexamples -/

/-- A concrete retrieval configuration: constant one-dimensional embedding,
unit weights, floor low enough to keep every candidate, bound 15. -/
def wCfg : RetrievalConfig :=
  { embed := fun _ => [1], w1 := 1, w2 := 1, w3 := 1,
    minScore := -100, nSearch := 15 }

/-- A concrete oracle all of whose external calls fail upstream. -/
def wOracle : LlmOracle :=
  { understand := fun _ _ => .error .failure,
    rerank := fun _ _ => .error .failure,
    synth := fun _ _ _ => .error .failure,
    speech := fun _ => .error .failure }

/-- A concrete narrative-frame passage (Dhritarashtra speaking). -/
def wNarr : Passage :=
  { id := 1, source_text := "धृतराष्ट्र उवाच", translation := "Dhritarashtra said",
    speaker := "dhritarashtra", emotion_tags := [], keywords := [],
    embedding := [1] }

/-- A concrete untagged passage (no emotion tags). -/
def wUntagged : Passage :=
  { id := 7, source_text := "श्लोक", translation := "a verse",
    speaker := "krishna", emotion_tags := [], keywords := [],
    embedding := [1] }

/-- The same passage with the emotional state "sad" added to its tags. -/
def wTagged : Passage :=
  { wUntagged with emotion_tags := "sad" :: wUntagged.emotion_tags }

/-- The blocked-topic request of the spec's scenario
("Who will win the cricket match"). -/
def wCricketReq : Request :=
  { question := "Who will win the cricket match", history := [], user_id := 0,
    include_audio := false }

/-! ## Ranking-order lemmas -/

instance : IsTrans ScoredCandidate CandLE where
  trans a b c h1 h2 := by
    rcases h1 with h1 | ⟨h1e, h1i⟩ <;> rcases h2 with h2 | ⟨h2e, h2i⟩
    · exact Or.inl (lt_trans h2 h1)
    · exact Or.inl (by rw [← h2e]; exact h1)
    · exact Or.inl (by rw [h1e]; exact h2)
    · exact Or.inr ⟨h1e.trans h2e, le_trans h1i h2i⟩

instance : IsTotal ScoredCandidate CandLE where
  total a b := by
    rcases lt_trichotomy a.adjusted b.adjusted with h | h | h
    · exact Or.inr (Or.inl h)
    · rcases Nat.le_total a.passage.id b.passage.id with hi | hi
      · exact Or.inl (Or.inr ⟨h, hi⟩)
      · exact Or.inr (Or.inr ⟨h.symm, hi⟩)
    · exact Or.inl (Or.inl h)

/-- Every candidate returned by `search` is the scoring of its own passage,
for some passage of the corpus, and lies above the floor. -/
theorem mem_search (cfg : RetrievalConfig) (corpus : List Passage)
    (raw rew estate : String) (c : ScoredCandidate)
    (hc : c ∈ search cfg corpus raw rew estate) :
    c = scoreOf cfg raw rew estate c.passage ∧ c.passage ∈ corpus ∧
      cfg.minScore < c.adjusted := by
  unfold search at hc
  have h1 := List.mem_of_mem_take hc
  rw [List.mem_insertionSort] at h1
  have h2 := List.mem_of_mem_filter h1
  have h3 := List.of_mem_filter h1
  obtain ⟨p, hp, hpc⟩ := List.mem_map.mp h2
  have hpass : c.passage = p := by rw [← hpc]; rfl
  refine ⟨ ?_, ?_, ?_ ⟩
  · rw [hpass, hpc]
  · rw [hpass]; exact hp
  · simpa using h3

/-- The output of `search` is pairwise ordered by `CandLE`. -/
theorem search_pairwise (cfg : RetrievalConfig) (corpus : List Passage)
    (raw rew estate : String) :
    (search cfg corpus raw rew estate).Pairwise CandLE := by
  unfold search
  exact (List.sorted_insertionSort CandLE _).sublist (List.take_sublist _ _)

/-- C1: for every query (fixed corpus, fixed weights), `search()` returns an
ordered sequence of at most `nSearch` scored candidates, pairwise sorted in
non-increasing order of adjusted score with ties broken by ascending passage
id, and — being a pure function — running it twice on identical input yields
the identical ordered output. -/
theorem C1_search_sorted_bounded_deterministic (cfg : RetrievalConfig)
    (corpus : List Passage) (raw rew estate : String) :
    (search cfg corpus raw rew estate).length ≤ cfg.nSearch ∧
    (search cfg corpus raw rew estate).Pairwise
      (fun a b => b.adjusted < a.adjusted ∨
        (a.adjusted = b.adjusted ∧ a.passage.id ≤ b.passage.id)) ∧
    search cfg corpus raw rew estate = search cfg corpus raw rew estate := by
  refine ⟨ ?_, ?_, rfl⟩
  · unfold search
    exact List.length_take_le _ _
  · exact (search_pairwise cfg corpus raw rew estate).imp (fun h => h)

/-- C4: a narrative-frame passage's adjusted score after the adjustment step
is always exactly `penaltyValue` lower than its pre-penalty score (the fused
score plus the emotion-boost term; the two additive adjustments commute,
spec §4.3 step 5). -/
theorem C4_narrative_penalty (cfg : RetrievalConfig) (raw rew estate : String)
    (p : Passage) (h : isNarrative p.speaker = true) :
    (scoreOf cfg raw rew estate p).adjusted =
      ((scoreOf cfg raw rew estate p).fused + emotionBoost estate p)
        - penaltyValue := by
  simp [scoreOf, narrativePenalty, h]

/-- The adjusted score of the emotion-tagged copy of a passage exceeds the
untagged one's by exactly `boostValue`; all sub-scores agree since none of
them reads the emotion tags. -/
theorem scoreOf_tagged (cfg : RetrievalConfig) (raw rew estate : String)
    (p : Passage) (hp : p.emotion_tags.contains estate = false) :
    (scoreOf cfg raw rew estate
        { p with emotion_tags := estate :: p.emotion_tags }).adjusted =
      (scoreOf cfg raw rew estate p).adjusted + boostValue := by
  have hqc : ((estate :: p.emotion_tags).contains estate) = true := by
    simp [List.contains_cons]
  have h1 : lexicalScore rew { p with emotion_tags := estate :: p.emotion_tags }
      = lexicalScore rew p := rfl
  have h2 : mappingScore raw rew { p with emotion_tags := estate :: p.emotion_tags }
      = mappingScore raw rew p := rfl
  simp only [scoreOf, emotionBoost, narrativePenalty, hp, hqc, h1, h2]
  simp
  ring

/-- C3: for two passages identical except that exactly one carries the
query's `emotional_state` among its `emotion_tags`, the tagged passage never
ranks below the untagged one in the retriever's output: any position holding
the untagged passage is strictly after every position holding the tagged
one. -/
theorem C3_emotion_boost_never_ranks_below (cfg : RetrievalConfig)
    (corpus : List Passage) (raw rew estate : String) (p q : Passage)
    (hq : q = { p with emotion_tags := estate :: p.emotion_tags })
    (hp : p.emotion_tags.contains estate = false) :
    ∀ (i j : Nat) (ci cj : ScoredCandidate),
      (search cfg corpus raw rew estate)[i]? = some ci →
      (search cfg corpus raw rew estate)[j]? = some cj →
      ci.passage = p → cj.passage = q →
      j < i := by
  intro i j ci cj hgi hgj hpi hqj
  obtain ⟨hi, hie⟩ := List.getElem?_eq_some.mp hgi
  obtain ⟨hj, hje⟩ := List.getElem?_eq_some.mp hgj
  have hpi : ((search cfg corpus raw rew estate).get ⟨i, hi⟩).passage = p := by
    rw [show (search cfg corpus raw rew estate).get ⟨i, hi⟩ = ci from hie]
    exact hpi
  have hqj : ((search cfg corpus raw rew estate).get ⟨j, hj⟩).passage = q := by
    rw [show (search cfg corpus raw rew estate).get ⟨j, hj⟩ = cj from hje]
    exact hqj
  have hpw := search_pairwise cfg corpus raw rew estate
  have hmi := List.get_mem (search cfg corpus raw rew estate) i hi
  have hmj := List.get_mem (search cfg corpus raw rew estate) j hj
  obtain ⟨hci, -, -⟩ := mem_search cfg corpus raw rew estate _ hmi
  obtain ⟨hcj, -, -⟩ := mem_search cfg corpus raw rew estate _ hmj
  rw [hpi] at hci
  rw [hqj] at hcj
  have hadj : (scoreOf cfg raw rew estate q).adjusted =
      (scoreOf cfg raw rew estate p).adjusted + boostValue := by
    rw [hq]
    exact scoreOf_tagged cfg raw rew estate p hp
  have hboost : (0 : ℚ) < boostValue := by norm_num [boostValue]
  rcases Nat.lt_trichotomy j i with h | h | h
  · exact h
  · exfalso
    subst h
    have hpq : p = q := by
      have hcc : scoreOf cfg raw rew estate p = scoreOf cfg raw rew estate q := by
        rw [← hci, ← hcj]
      have := congrArg ScoredCandidate.passage hcc
      simpa [scoreOf] using this
    have htags := congrArg (fun r => r.emotion_tags.length) (hpq.trans hq)
    simp at htags
  · exfalso
    have hcle : CandLE ((search cfg corpus raw rew estate).get ⟨i, hi⟩)
        ((search cfg corpus raw rew estate).get ⟨j, hj⟩) :=
      List.pairwise_iff_get.mp hpw ⟨i, hi⟩ ⟨j, hj⟩ (Fin.mk_lt_mk.mpr h)
    rw [hci, hcj] at hcle
    rcases hcle with hlt | ⟨heq, -⟩
    · rw [hadj] at hlt
      linarith
    · rw [hadj] at heq
      linarith

/-- Evaluation of `search` on a one-passage corpus whose score clears the
floor. -/
theorem search_single_eval (cfg : RetrievalConfig) (raw rew estate : String)
    (a : Passage) (ha : cfg.minScore < (scoreOf cfg raw rew estate a).adjusted)
    (hn : 1 ≤ cfg.nSearch) :
    search cfg [a] raw rew estate = [scoreOf cfg raw rew estate a] := by
  unfold search
  simp only [List.map, List.filter_cons, decide_eq_true ha, if_pos rfl,
    List.filter_nil, List.insertionSort, List.orderedInsert]
  exact List.take_of_length_le (by simpa using hn)

/-- Evaluation of `search` on a two-passage corpus where the second passage
outscores the first: both clear the floor and the output is swapped. -/
theorem search_pair_eval (cfg : RetrievalConfig) (raw rew estate : String)
    (a b : Passage)
    (ha : cfg.minScore < (scoreOf cfg raw rew estate a).adjusted)
    (hb : cfg.minScore < (scoreOf cfg raw rew estate b).adjusted)
    (hab : (scoreOf cfg raw rew estate a).adjusted <
      (scoreOf cfg raw rew estate b).adjusted)
    (hn : 2 ≤ cfg.nSearch) :
    search cfg [a, b] raw rew estate =
      [scoreOf cfg raw rew estate b, scoreOf cfg raw rew estate a] := by
  unfold search
  have hno : ¬ CandLE (scoreOf cfg raw rew estate a) (scoreOf cfg raw rew estate b) := by
    unfold CandLE
    push_neg
    exact ⟨not_lt.mp (fun hlt => absurd (lt_trans hab hlt) (lt_irrefl _)),
      fun he => absurd hab (by rw [he]; exact lt_irrefl _)⟩
  simp only [List.map, List.filter_cons, decide_eq_true ha, decide_eq_true hb,
    if_pos rfl, List.filter_nil, List.insertionSort, List.orderedInsert,
    if_neg hno]
  exact List.take_of_length_le (by simpa using hn)

/-- Adjusted score of the untagged witness passage: dense 1, lexical 0,
mapping 0, no boost, no penalty. -/
theorem wUntagged_adjusted : (scoreOf wCfg "q" "q" "sad" wUntagged).adjusted = 1 := by
  have hlex : ((tokensOf "q").filter
      (fun t => (tokensOf (wUntagged.translation ++ " " ++
        wUntagged.source_text)).contains t)).length = 0 := by decide
  have hmap : (wUntagged.keywords.any (fun k =>
      hasSubstr (normalize "q") (normalize k) ||
        hasSubstr (normalize "q") (normalize k))) = false := by decide
  have hnarr : isNarrative wUntagged.speaker = false := by decide
  have hco : wUntagged.emotion_tags.contains "sad" = false := by decide
  simp only [scoreOf, lexicalScore, mappingScore, emotionBoost,
    narrativePenalty, hlex, hmap, hnarr, hco, Bool.false_eq_true, if_false,
    Nat.cast_zero]
  norm_num [wCfg, wUntagged, dot]

/-- Adjusted score of the tagged witness passage: the same fused score plus
the +3 emotion boost. -/
theorem wTagged_adjusted : (scoreOf wCfg "q" "q" "sad" wTagged).adjusted = 4 := by
  have hlex : ((tokensOf "q").filter
      (fun t => (tokensOf (wTagged.translation ++ " " ++
        wTagged.source_text)).contains t)).length = 0 := by decide
  have hmap : (wTagged.keywords.any (fun k =>
      hasSubstr (normalize "q") (normalize k) ||
        hasSubstr (normalize "q") (normalize k))) = false := by decide
  have hnarr : isNarrative wTagged.speaker = false := by decide
  have hco : wTagged.emotion_tags.contains "sad" = true := by decide
  simp only [scoreOf, lexicalScore, mappingScore, emotionBoost,
    narrativePenalty, hlex, hmap, hnarr, hco, Bool.false_eq_true, if_false,
    if_true, Nat.cast_zero]
  norm_num [wCfg, wTagged, wUntagged, dot, boostValue]

/-- `search` on the two-passage witness corpus: the tagged copy ranks first. -/
theorem wSearch_eval : search wCfg [wUntagged, wTagged] "q" "q" "sad" =
    [scoreOf wCfg "q" "q" "sad" wTagged, scoreOf wCfg "q" "q" "sad" wUntagged] :=
  search_pair_eval wCfg "q" "q" "sad" wUntagged wTagged
    (by rw [wUntagged_adjusted]; norm_num [wCfg])
    (by rw [wTagged_adjusted]; norm_num [wCfg])
    (by rw [wUntagged_adjusted, wTagged_adjusted]; norm_num)
    (by norm_num [wCfg])

/-- Witness for C3: on the concrete two-passage corpus the tagged passage
occupies position 0 and the untagged one position 1. -/
theorem C3_emotion_boost_never_ranks_below_witness :
    (search wCfg [wUntagged, wTagged] "q" "q" "sad")[1]? =
      some (scoreOf wCfg "q" "q" "sad" wUntagged) ∧
    (search wCfg [wUntagged, wTagged] "q" "q" "sad")[0]? =
      some (scoreOf wCfg "q" "q" "sad" wTagged) ∧
    (0 : Nat) < 1 := by
  have h1 : (search wCfg [wUntagged, wTagged] "q" "q" "sad")[1]? =
      some (scoreOf wCfg "q" "q" "sad" wUntagged) := by rw [wSearch_eval]; rfl
  have h0 : (search wCfg [wUntagged, wTagged] "q" "q" "sad")[0]? =
      some (scoreOf wCfg "q" "q" "sad" wTagged) := by rw [wSearch_eval]; rfl
  exact ⟨h1, h0,
    C3_emotion_boost_never_ranks_below wCfg [wUntagged, wTagged] "q" "q" "sad"
      wUntagged wTagged rfl (by decide) 1 0
      (scoreOf wCfg "q" "q" "sad" wUntagged)
      (scoreOf wCfg "q" "q" "sad" wTagged) h1 h0 rfl rfl⟩

/-- Witness for C4 at the concrete narrative passage `wNarr`. -/
theorem C4_narrative_penalty_witness :
    (scoreOf wCfg "q" "q" "sad" wNarr).adjusted =
      ((scoreOf wCfg "q" "q" "sad" wNarr).fused + emotionBoost "sad" wNarr)
        - penaltyValue :=
  C4_narrative_penalty wCfg "q" "q" "sad" wNarr (by decide)

/-! ## Relevance-gate theorems -/

/-- No greeting phrase contains a blocked topic. -/
theorem greeting_matchAny_blocked :
    ∀ s ∈ greetingSet, matchAny blockedTopics s = false := by decide

/-- A query matching a blocked topic is never an exact greeting. -/
theorem blocked_not_greeting (q : String) (hb : isBlocked q = true) :
    isGreeting q = false := by
  cases hgb : isGreeting q with
  | false => rfl
  | true =>
    exfalso
    have hmem : normalize q ∈ greetingSet := by
      unfold isGreeting at hgb
      simpa using hgb
    have h2 := greeting_matchAny_blocked (normalize q) hmem
    unfold isBlocked at hb
    rw [h2] at hb
    cases hb

/-- C2: every query matching a blocked-topic pattern and no allowed-topic
pattern makes the pipeline return the fixed rejection Answer Record
(tone general, empty evidence, fixed rejection text) with zero external
calls — in particular zero external-model calls. -/
theorem C2_blocked_rejection (cfg : RetrievalConfig) (corpus : List Passage)
    (o : LlmOracle) (req : Request)
    (hb : isBlocked req.question = true) (ha : isAllowed req.question = false) :
    runPipeline cfg corpus o req = (rejectionRecord, []) := by
  have hg := blocked_not_greeting req.question hb
  unfold runPipeline
  rw [hg, hb, ha]
  simp

/-- Witness for C2 at the spec's own scenario query
"Who will win the cricket match". -/
theorem C2_blocked_rejection_witness :
    isBlocked wCricketReq.question = true ∧
    isAllowed wCricketReq.question = false ∧
    runPipeline wCfg [] wOracle wCricketReq = (rejectionRecord, []) :=
  ⟨by decide, by decide,
    C2_blocked_rejection wCfg [] wOracle wCricketReq (by decide) (by decide)⟩

/-! ## Reranking-fallback theorems -/

theorem understandStage_failing (o : LlmOracle) (req : Request) :
    understandStage (failingRerank o) req = understandStage o req := rfl

theorem understandStage_unranked (o : LlmOracle) (req : Request) :
    understandStage (unrankedRerank o) req = understandStage o req := rfl

theorem synthStage_failing (o : LlmOracle) (u : Understanding) (tone : Tone)
    (a : List Nat) (b : List Passage) :
    synthStage (failingRerank o) u tone a b = synthStage o u tone a b := rfl

theorem synthStage_unranked (o : LlmOracle) (u : Understanding) (tone : Tone)
    (a : List Nat) (b : List Passage) :
    synthStage (unrankedRerank o) u tone a b = synthStage o u tone a b := rfl

theorem speech_failing (o : LlmOracle) : (failingRerank o).speech = o.speech := rfl

theorem speech_unranked (o : LlmOracle) : (unrankedRerank o).speech = o.speech := rfl

/-- The reranking stage of an oracle with always-failing reranking evaluates
to the unranked top `nFinal`. -/
theorem rerankStage_failing (o : LlmOracle) (ids : List Nat) (rew : String) :
    rerankStage (failingRerank o) ids rew = ids.take nFinal := rfl

/-- The reranking stage of an oracle returning the unranked top `nFinal`
validates to exactly that list. -/
theorem rerankStage_unranked (o : LlmOracle) (ids : List Nat) (rew : String) :
    rerankStage (unrankedRerank o) ids rew = ids.take nFinal := by
  have hf : (ids.take nFinal).filter (fun i => ids.contains i) = ids.take nFinal :=
    List.filter_eq_self.mpr (fun a ha => by
      simpa using List.mem_of_mem_take ha)
  show validateRerank ids (ids.take nFinal) = ids.take nFinal
  unfold validateRerank
  rw [hf, List.take_take]
  simp

/-- The pipeline with a failing reranker coincides with the pipeline whose
reranker returns the unranked top `nFinal`. -/
theorem fullPath_failing_eq (cfg : RetrievalConfig) (corpus : List Passage)
    (o : LlmOracle) (req : Request) :
    fullPath cfg corpus (failingRerank o) req =
      fullPath cfg corpus (unrankedRerank o) req := by
  unfold fullPath
  simp only [understandStage_failing, understandStage_unranked,
    rerankStage_failing, rerankStage_unranked, synthStage_failing,
    synthStage_unranked, speech_failing, speech_unranked]

/-- C5: when the Reranker's external call fails, the caller falls back to the
unranked top `nFinal` candidates, and the whole pipeline behaves exactly as
if the reranker had returned the unranked top `nFinal` — the failure is never
propagated as a hard failure. -/
theorem C5_rerank_failure_fallback (cfg : RetrievalConfig)
    (corpus : List Passage) (o : LlmOracle) (req : Request) :
    (∀ (candIds : List Nat) (rew : String) (e : UpstreamError),
      o.rerank candIds rew = .error e →
      rerankStage o candIds rew = candIds.take nFinal) ∧
    runPipeline cfg corpus (failingRerank o) req =
      runPipeline cfg corpus (unrankedRerank o) req := by
  constructor
  · intro ids rew e h
    unfold rerankStage
    rw [h]
  · unfold runPipeline
    rw [fullPath_failing_eq]

/-- Witness for C5: the always-failing oracle on a concrete candidate list. -/
theorem C5_rerank_failure_fallback_witness :
    rerankStage wOracle [7, 8] "q" = ([7, 8] : List Nat).take nFinal :=
  (C5_rerank_failure_fallback wCfg [] wOracle wCricketReq).1 [7, 8] "q"
    .failure rfl

/-! ## Evidence-bound theorems -/

/-- The reranking stage never returns more than `nFinal` ids. -/
theorem rerankStage_length_le (o : LlmOracle) (ids : List Nat) (rew : String) :
    (rerankStage o ids rew).length ≤ nFinal := by
  unfold rerankStage
  cases o.rerank ids rew with
  | error e => exact List.length_take_le _ _
  | ok ids' =>
    unfold validateRerank
    by_cases he : ((ids'.filter (fun i => ids.contains i)).take nFinal).isEmpty
    · simp only [he, if_true]
      exact List.length_take_le _ _
    · simp only [he, if_false]
      exact List.length_take_le _ _

/-- The reranking stage never returns an empty shortlist when there are
candidates. -/
theorem rerankStage_ne_nil (o : LlmOracle) (ids : List Nat) (rew : String)
    (h : ids ≠ []) : rerankStage o ids rew ≠ [] := by
  have htake : ids.take nFinal ≠ [] := by
    simp [List.take_eq_nil_iff, h, nFinal]
  unfold rerankStage
  cases o.rerank ids rew with
  | error e => exact htake
  | ok ids' =>
    unfold validateRerank
    by_cases he : ((ids'.filter (fun i => ids.contains i)).take nFinal).isEmpty
    · simp only [he, if_true]
      exact htake
    · simp only [he, if_false]
      simpa [List.isEmpty_iff] using he

/-- The synthesis stage cites at most `nFinal` ids when given a shortlist of
at most `nFinal`. -/
theorem synthStage_evidence_le (o : LlmOracle) (u : Understanding)
    (tone : Tone) (ids : List Nat) (ps : List Passage)
    (h : ids.length ≤ nFinal) :
    (synthStage o u tone ids ps).2.length ≤ nFinal := by
  unfold synthStage
  cases o.synth u.rewritten tone ps with
  | error e => simp [nFinal]
  | ok t =>
    by_cases hv : validAnswer t
    · simp only [hv, if_true]
      cases tone with
      | crisis =>
        calc (ids.take 1).length ≤ 1 := List.length_take_le _ _
        _ ≤ nFinal := by norm_num [nFinal]
      | distress => exact h
      | general => exact h
    · simp [hv, nFinal]

/-- Case analysis of the synthesis stage's output: either the template with
no evidence, or a validated answer citing the shortlist (truncated to one in
crisis tone). -/
theorem synthStage_cases (o : LlmOracle) (u : Understanding) (tone : Tone)
    (ids : List Nat) (ps : List Passage) :
    ((synthStage o u tone ids ps).2 = [] ∧
      (synthStage o u tone ids ps).1 = templateText) ∨
    (synthStage o u tone ids ps).2 = ids ∨
    (synthStage o u tone ids ps).2 = ids.take 1 := by
  unfold synthStage
  cases o.synth u.rewritten tone ps with
  | error e => exact Or.inl ⟨rfl, rfl⟩
  | ok t =>
    by_cases hv : validAnswer t
    · simp only [hv, if_true]
      cases tone with
      | crisis => exact Or.inr (Or.inr rfl)
      | distress => exact Or.inr (Or.inl rfl)
      | general => exact Or.inr (Or.inl rfl)
    · left
      simp [hv]

/-- When the synthesis stage produces a text distinct from the fixed template,
it cites at least one passage (given a non-empty shortlist). -/
theorem synthStage_evidence_pos (o : LlmOracle) (u : Understanding)
    (tone : Tone) (ids : List Nat) (ps : List Passage) (hne : ids ≠ [])
    (ht : (synthStage o u tone ids ps).1 ≠ templateText) :
    1 ≤ (synthStage o u tone ids ps).2.length := by
  rcases synthStage_cases o u tone ids ps with ⟨he, htempl⟩ | he | he
  · exact absurd htempl ht
  · rw [he]
    simpa [Nat.one_le_iff_ne_zero, List.length_eq_zero] using hne
  · rw [he]
    have h1 : ids.take 1 ≠ [] := by simp [List.take_eq_nil_iff, hne]
    simpa [Nat.one_le_iff_ne_zero, List.length_eq_zero] using h1

/-- C6 (amended): every Answer Record produced by the pipeline carries at
most 5 evidence ids; a record whose text is not one of the fixed
no-evidence answers (greeting, rejection, empty-retrieval fallback,
synthesis template) cites between 1 and 5 passages. -/
theorem C6_evidence_bounds (cfg : RetrievalConfig) (corpus : List Passage)
    (o : LlmOracle) (req : Request) :
    (runPipeline cfg corpus o req).1.evidence.length ≤ 5 ∧
    ((runPipeline cfg corpus o req).1.text ∉
        [greetingText, rejectionText, genericFallbackText, templateText] →
      1 ≤ (runPipeline cfg corpus o req).1.evidence.length) := by
  unfold runPipeline
  by_cases hg : isGreeting req.question
  · simp [hg, greetingRecord]
  · by_cases hb : (isBlocked req.question && !isAllowed req.question) = true
    · simp [hg, hb, rejectionRecord]
    · simp only [hg, hb, Bool.false_eq_true, if_false]
      unfold fullPath
      by_cases hc : (search cfg corpus req.question
          (understandStage o req).rewritten
          (understandStage o req).emotional).isEmpty
      · simp [hc]
      · simp only [hc, Bool.false_eq_true, if_false]
        have hcand : (search cfg corpus req.question
            (understandStage o req).rewritten
            (understandStage o req).emotional).map
              (fun c => c.passage.id) ≠ [] := by
          simpa [List.isEmpty_iff] using hc
        have hlen := rerankStage_length_le o
          ((search cfg corpus req.question (understandStage o req).rewritten
            (understandStage o req).emotional).map (fun c => c.passage.id))
          (understandStage o req).rewritten
        have hne := rerankStage_ne_nil o
          ((search cfg corpus req.question (understandStage o req).rewritten
            (understandStage o req).emotional).map (fun c => c.passage.id))
          (understandStage o req).rewritten hcand
        have hle := synthStage_evidence_le o (understandStage o req)
          (classifyTone req.question (understandStage o req).emotional)
          (rerankStage o ((search cfg corpus req.question
            (understandStage o req).rewritten
            (understandStage o req).emotional).map (fun c => c.passage.id))
            (understandStage o req).rewritten)
          ((rerankStage o ((search cfg corpus req.question
            (understandStage o req).rewritten
            (understandStage o req).emotional).map (fun c => c.passage.id))
            (understandStage o req).rewritten).filterMap
              (fun i => corpus.find? (fun p => p.id == i))) hlen
        have hpos := synthStage_evidence_pos o (understandStage o req)
          (classifyTone req.question (understandStage o req).emotional)
          (rerankStage o ((search cfg corpus req.question
            (understandStage o req).rewritten
            (understandStage o req).emotional).map (fun c => c.passage.id))
            (understandStage o req).rewritten)
          ((rerankStage o ((search cfg corpus req.question
            (understandStage o req).rewritten
            (understandStage o req).emotional).map (fun c => c.passage.id))
            (understandStage o req).rewritten).filterMap
              (fun i => corpus.find? (fun p => p.id == i))) hne
        by_cases ha : req.include_audio
        · simp only [ha, if_true]
          cases hs : o.speech (synthStage o (understandStage o req)
              (classifyTone req.question (understandStage o req).emotional)
              (rerankStage o ((search cfg corpus req.question
                (understandStage o req).rewritten
                (understandStage o req).emotional).map (fun c => c.passage.id))
                (understandStage o req).rewritten)
              ((rerankStage o ((search cfg corpus req.question
                (understandStage o req).rewritten
                (understandStage o req).emotional).map (fun c => c.passage.id))
                (understandStage o req).rewritten).filterMap
                  (fun i => corpus.find? (fun p => p.id == i)))).1 with
          | ok h =>
            refine ⟨hle, fun htx => hpos ?_⟩
            · simp only [hs] at htx ⊢
              intro hteq
              exact htx (by simp [hteq])
          | error e =>
            refine ⟨hle, fun htx => hpos ?_⟩
            · simp only [hs] at htx ⊢
              intro hteq
              exact htx (by simp [hteq])
        · simp only [ha, Bool.false_eq_true, if_false]
          refine ⟨hle, fun htx => hpos ?_⟩
          intro hteq
          exact htx (by simp [hteq])

/-- C6 counterexample: the rejection record produced for the blocked query
"Who will win the cricket match" carries 0 evidence ids, not between 1
and 5. -/
theorem C6_evidence_counterexample :
    ¬(1 ≤ (runPipeline wCfg [] wOracle wCricketReq).1.evidence.length ∧
      (runPipeline wCfg [] wOracle wCricketReq).1.evidence.length ≤ 5) := by
  decide

/-- Adjusted score of the untagged witness passage under the peace query. -/
theorem wUntagged_peace_adjusted :
    (scoreOf wCfg "I need peace of mind" "peace" "calm" wUntagged).adjusted
      = 1 := by
  have hlex : ((tokensOf "peace").filter
      (fun t => (tokensOf (wUntagged.translation ++ " " ++
        wUntagged.source_text)).contains t)).length = 0 := by decide
  have hmap : (wUntagged.keywords.any (fun k =>
      hasSubstr (normalize "I need peace of mind") (normalize k) ||
        hasSubstr (normalize "peace") (normalize k))) = false := by decide
  have hnarr : isNarrative wUntagged.speaker = false := by decide
  have hco : wUntagged.emotion_tags.contains "calm" = false := by decide
  simp only [scoreOf, lexicalScore, mappingScore, emotionBoost,
    narrativePenalty, hlex, hmap, hnarr, hco, Bool.false_eq_true, if_false,
    Nat.cast_zero]
  norm_num [wCfg, wUntagged, dot]

/-- `search` on the one-passage corpus under the peace query. -/
theorem wSearch_peace_eval :
    search wCfg [wUntagged] "I need peace of mind" "peace" "calm" =
      [scoreOf wCfg "I need peace of mind" "peace" "calm" wUntagged] :=
  search_single_eval wCfg "I need peace of mind" "peace" "calm" wUntagged
    (by rw [wUntagged_peace_adjusted]; norm_num [wCfg])
    (by norm_num [wCfg])

/-- Full evaluation of the pipeline on the grounded witness run. -/
theorem wPeace_run : runPipeline wCfg [wUntagged] wOkOracle wPeaceReq =
    (⟨"शांति ही धर्म है", .general, [7], none⟩,
      [ExtCall.llmUnderstand, ExtCall.llmRerank, ExtCall.llmSynthesize]) := by
  have hg : isGreeting wPeaceReq.question = false := by decide
  have hb : (isBlocked wPeaceReq.question &&
      !isAllowed wPeaceReq.question) = false := by decide
  have hs : search wCfg [wUntagged] wPeaceReq.question
      (understandStage wOkOracle wPeaceReq).rewritten
      (understandStage wOkOracle wPeaceReq).emotional =
      [scoreOf wCfg "I need peace of mind" "peace" "calm" wUntagged] :=
    wSearch_peace_eval
  unfold runPipeline
  rw [hg, hb]
  simp only [Bool.false_eq_true, if_false]
  unfold fullPath
  simp only [hs]
  rfl

/-- Witness for C6: the grounded run produces a non-template answer citing
exactly one passage. -/
theorem C6_evidence_bounds_witness :
    (runPipeline wCfg [wUntagged] wOkOracle wPeaceReq).1.text ∉
      [greetingText, rejectionText, genericFallbackText, templateText] ∧
    1 ≤ (runPipeline wCfg [wUntagged] wOkOracle wPeaceReq).1.evidence.length := by
  have ht : (runPipeline wCfg [wUntagged] wOkOracle wPeaceReq).1.text ∉
      [greetingText, rejectionText, genericFallbackText, templateText] := by
    rw [wPeace_run]
    decide
  exact ⟨ht, (C6_evidence_bounds wCfg [wUntagged] wOkOracle wPeaceReq).2 ht⟩

/-! ## Client-side theorems (`VoiceChat.js`, `MessageHistory.js`) -/

/-- C7 counterexample: in `VoiceChat.js` the ask request is sent with
`include_audio: false`, yet the handler still requests speech synthesis of
the answer through the separate speak endpoint. -/
theorem C7_audio_counterexample :
    ClientCall.ask false "hello friend" ∈
      (handleVoiceInput 0 (.success "ans") initState "hello friend").2 ∧
    ClientCall.speak "ans" ∈
      (handleVoiceInput 0 (.success "ans") initState "hello friend").2 := by
  decide

/-- C7 (amended): the backend pipeline invokes speech synthesis only when
`include_audio` is true — with the flag false it makes no speech call and
returns no audio handle — but the chat client additionally vocalizes every
received answer via the separate speak endpoint, even though its ask request
sets `include_audio: false`. -/
theorem C7_audio_gating (cfg : RetrievalConfig) (corpus : List Passage)
    (o : LlmOracle) (req : Request) (now : Nat) (s : ClientState)
    (ans text : String) :
    (req.include_audio = false →
      ExtCall.speechSynthesize ∉ (runPipeline cfg corpus o req).2 ∧
      (runPipeline cfg corpus o req).1.audio_ref = none) ∧
    ((jsTrim text).isEmpty = false → s.isSpeaking = false →
      ClientCall.ask false text ∈
        (handleVoiceInput now (.success ans) s text).2 ∧
      ClientCall.speak (if ans.isEmpty then fallbackAnswerText else ans) ∈
        (handleVoiceInput now (.success ans) s text).2) := by
  constructor
  · intro ha
    unfold runPipeline
    by_cases hg : isGreeting req.question
    · simp [hg, greetingRecord]
    · by_cases hb : (isBlocked req.question && !isAllowed req.question) = true
      · simp [hg, hb, rejectionRecord]
      · simp only [hg, hb, Bool.false_eq_true, if_false]
        unfold fullPath
        by_cases hc : (search cfg corpus req.question
            (understandStage o req).rewritten
            (understandStage o req).emotional).isEmpty
        · simp [hc]
        · simp only [hc, Bool.false_eq_true, if_false, ha]
          simp
  · intro hne hsp
    unfold handleVoiceInput
    simp only [hne, Bool.false_eq_true, if_false]
    unfold speakText stopAudio
    simp [hsp]

/-- Witness for C7: the rejection run with `include_audio = false`, and the
concrete client exchange. -/
theorem C7_audio_gating_witness :
    (ExtCall.speechSynthesize ∉ (runPipeline wCfg [] wOracle wCricketReq).2 ∧
      (runPipeline wCfg [] wOracle wCricketReq).1.audio_ref = none) ∧
    (ClientCall.ask false "hello" ∈
        (handleVoiceInput 0 (.success "a") initState "hello").2 ∧
      ClientCall.speak (if ("a" : String).isEmpty then fallbackAnswerText
          else "a") ∈
        (handleVoiceInput 0 (.success "a") initState "hello").2) :=
  ⟨(C7_audio_gating wCfg [] wOracle wCricketReq 0 initState "a" "hello").1 rfl,
    (C7_audio_gating wCfg [] wOracle wCricketReq 0 initState "a" "hello").2
      (by decide) rfl⟩

/-- C8: on a timeout of the ask request the handler appends the fixed
retryable "server waking up, try again" message (distinct from the permanent
failure message) and leaves the loading state, so the caller is not held. -/
theorem C8_timeout_retryable (now : Nat) (s : ClientState) (text : String)
    (h : (jsTrim text).isEmpty = false) :
    (handleVoiceInput now .timeoutErr s text).1.messages.getLast? =
      some (Msg.mk (now + 1) .krishna timeoutText (now + 1)) ∧
    timeoutText ≠ permanentErrorText ∧
    (handleVoiceInput now .timeoutErr s text).1.isLoading = false := by
  refine ⟨?_, by decide, ?_⟩
  · unfold handleVoiceInput speakText stopAudio
    simp only [h, Bool.false_eq_true, if_false]
    split <;> simp
  · unfold handleVoiceInput speakText stopAudio
    simp [h]

/-- Witness for C8 at a concrete non-blank input. -/
theorem C8_timeout_retryable_witness :
    (handleVoiceInput 0 .timeoutErr initState "hello").1.messages.getLast? =
      some (Msg.mk 1 .krishna timeoutText 1) ∧
    timeoutText ≠ permanentErrorText ∧
    (handleVoiceInput 0 .timeoutErr initState "hello").1.isLoading = false :=
  C8_timeout_retryable 0 initState "hello" (by decide)

/-- C9: confirming the clear-history dialog only resets the chat component's
local state — messages emptied, `hasStarted` reset, dialog closed — while
issuing no network request, so the server-side persisted history is left
unchanged (and unrelated local fields are untouched). -/
theorem C9_clear_history_local_only (s : ClientState) (h : List String) :
    (handleClearHistory s).1.messages = [] ∧
    (handleClearHistory s).1.hasStarted = false ∧
    (handleClearHistory s).2 = [] ∧
    serverAfter h (handleClearHistory s).2 = h ∧
    (handleClearHistory s).1.transcript = s.transcript ∧
    (handleClearHistory s).1.isLoading = s.isLoading ∧
    (handleClearHistory s).1.showConfirmDialog = false := by
  unfold handleClearHistory clearHistory stopAudio serverAfter
  by_cases hsp : s.isSpeaking <;> simp [hsp]

/-- C10: for every input whose trimmed form is empty, `handleVoiceInput`
returns immediately: the state (messages, loading flag) is unchanged and no
request is issued — in particular none to the ask endpoint. -/
theorem C10_blank_input_noop (now : Nat) (o : AskOutcome) (s : ClientState)
    (text : String) (h : jsTrim text = "") :
    handleVoiceInput now o s text = (s, []) ∧
    (handleVoiceInput now o s text).1.messages = s.messages ∧
    (∀ (b : Bool) (q : String),
      ClientCall.ask b q ∉ (handleVoiceInput now o s text).2) ∧
    (handleVoiceInput now o s text).1.isLoading = s.isLoading := by
  have he : (jsTrim text).isEmpty = true := by rw [h]; rfl
  have hh : handleVoiceInput now o s text = (s, []) := by
    unfold handleVoiceInput
    simp [he]
  refine ⟨hh, by rw [hh], ?_, by rw [hh]⟩
  intro b q
  rw [hh]
  simp

/-- Witness for C10 at the all-whitespace input. -/
theorem C10_blank_input_noop_witness :
    handleVoiceInput 0 (.success "x") initState "   " = (initState, []) :=
  (C10_blank_input_noop 0 (.success "x") initState "   " (by decide)).1

end Krishna
